import Mathlib

/-!
Verification of the loan-stress-monitor scoring core
(`streamlit_dashboard_enhanced.py`).

The embedding models the data-preparation and scoring pipeline of
`load_data`: the embedded 24-record bank dataset, the derived forensic
ratio columns, the bank-wise year-over-year loan growth (`pct_change`),
the additive point-band risk score `calc_risk`, the three-tier risk
classification, and the aggregate (mean) scoring used for filtered
groups.

Modelling conventions:
* Monetary amounts and percentage ratios are rationals (`ℚ`); the
  Python ints/floats in the source only ever hold exactly representable
  decimal values.
* `Loan_Growth_Pct` is `Option ℚ`: `none` models the `NaN` produced by
  `pct_change` on the first row of each bank group, matching the
  `pd.notna` test in `calc_risk`.
* Division in `ℚ` is total with `q / 0 = 0`; the embedded dataset never
  divides by zero (proved below), so this convention is only visible on
  hypothetical out-of-dataset inputs.
* String ordering (`df.sort_values(['Bank', 'Year'])`) is lexicographic
  on the character lists, which is exactly how pandas orders these
  ASCII strings.
-/

namespace LoanStressMonitor

/-- One raw bank-year record, as in the `data` literal of `load_data`
(source lines 150-184). -/
structure RawRecord where
  Bank : String
  Category : String
  Year : String
  Advances : ℚ
  Deposits : ℚ
  Gross_NPA : ℚ
  Net_NPA : ℚ
  Borrowings : ℚ
  Total_Assets : ℚ
  Net_Profit : ℚ
  Interest_Income : ℚ
deriving DecidableEq

/-- First record of the embedded dataset (named so theorems can refer to
a concrete dataset member without re-spelling it). -/
def yesBankFY2017 : RawRecord :=
  { Bank := "YES Bank", Category := "Stressed", Year := "FY2017", Advances := 157000,
    Deposits := 174000, Gross_NPA := 0.31, Net_NPA := 0.20, Borrowings := 18000,
    Total_Assets := 236000, Net_Profit := 3260, Interest_Income := 11500 }

/-- The embedded 24-record dataset (source lines 150-184), in source order. -/
def data : List RawRecord :=
  [yesBankFY2017,
   { Bank := "YES Bank", Category := "Stressed", Year := "FY2018", Advances := 195000,
     Deposits := 209000, Gross_NPA := 1.31, Net_NPA := 0.60, Borrowings := 25000,
     Total_Assets := 294000, Net_Profit := 3453, Interest_Income := 14800 },
   { Bank := "YES Bank", Category := "Stressed", Year := "FY2019", Advances := 241000,
     Deposits := 200000, Gross_NPA := 7.39, Net_NPA := 4.35, Borrowings := 45000,
     Total_Assets := 350000, Net_Profit := -18564, Interest_Income := 16200 },
   { Bank := "DHFL", Category := "Stressed", Year := "FY2017", Advances := 80000,
     Deposits := 42000, Gross_NPA := 0.58, Net_NPA := 0.40, Borrowings := 45000,
     Total_Assets := 105000, Net_Profit := 1250, Interest_Income := 7800 },
   { Bank := "DHFL", Category := "Stressed", Year := "FY2018", Advances := 105000,
     Deposits := 45000, Gross_NPA := 1.24, Net_NPA := 0.82, Borrowings := 68000,
     Total_Assets := 130000, Net_Profit := 982, Interest_Income := 9500 },
   { Bank := "DHFL", Category := "Stressed", Year := "FY2019", Advances := 116000,
     Deposits := 38000, Gross_NPA := 4.15, Net_NPA := 2.65, Borrowings := 82000,
     Total_Assets := 140000, Net_Profit := -2223, Interest_Income := 10200 },
   { Bank := "IDBI Bank", Category := "Stressed", Year := "FY2017", Advances := 165000,
     Deposits := 185000, Gross_NPA := 16.50, Net_NPA := 8.25, Borrowings := 28000,
     Total_Assets := 290000, Net_Profit := -5663, Interest_Income := 15200 },
   { Bank := "IDBI Bank", Category := "Stressed", Year := "FY2018", Advances := 155000,
     Deposits := 175000, Gross_NPA := 27.95, Net_NPA := 15.70, Borrowings := 32000,
     Total_Assets := 285000, Net_Profit := -8238, Interest_Income := 14500 },
   { Bank := "IDBI Bank", Category := "Stressed", Year := "FY2019", Advances := 148000,
     Deposits := 170000, Gross_NPA := 28.38, Net_NPA := 14.95, Borrowings := 30000,
     Total_Assets := 275000, Net_Profit := -4106, Interest_Income := 13800 },
   { Bank := "HDFC Bank", Category := "Healthy", Year := "FY2017", Advances := 590000,
     Deposits := 840000, Gross_NPA := 1.00, Net_NPA := 0.40, Borrowings := 12000,
     Total_Assets := 1080000, Net_Profit := 14549, Interest_Income := 52800 },
   { Bank := "HDFC Bank", Category := "Healthy", Year := "FY2018", Advances := 710000,
     Deposits := 975000, Gross_NPA := 1.30, Net_NPA := 0.40, Borrowings := 14000,
     Total_Assets := 1240000, Net_Profit := 17486, Interest_Income := 61500 },
   { Bank := "HDFC Bank", Category := "Healthy", Year := "FY2019", Advances := 856000,
     Deposits := 1140000, Gross_NPA := 1.36, Net_NPA := 0.41, Borrowings := 15000,
     Total_Assets := 1445000, Net_Profit := 21078, Interest_Income := 70800 },
   { Bank := "ICICI Bank", Category := "Healthy", Year := "FY2017", Advances := 445000,
     Deposits := 562000, Gross_NPA := 7.82, Net_NPA := 4.89, Borrowings := 42000,
     Total_Assets := 785000, Net_Profit := 8575, Interest_Income := 39800 },
   { Bank := "ICICI Bank", Category := "Healthy", Year := "FY2018", Advances := 512395,
     Deposits := 615000, Gross_NPA := 6.54, Net_NPA := 3.95, Borrowings := 45000,
     Total_Assets := 850000, Net_Profit := 9624, Interest_Income := 44200 },
   { Bank := "ICICI Bank", Category := "Healthy", Year := "FY2019", Advances := 586647,
     Deposits := 685000, Gross_NPA := 5.95, Net_NPA := 2.95, Borrowings := 48000,
     Total_Assets := 945000, Net_Profit := 12402, Interest_Income := 48900 },
   { Bank := "Kotak Bank", Category := "Healthy", Year := "FY2017", Advances := 135000,
     Deposits := 185000, Gross_NPA := 2.15, Net_NPA := 1.05, Borrowings := 8500,
     Total_Assets := 240000, Net_Profit := 3325, Interest_Income := 12400 },
   { Bank := "Kotak Bank", Category := "Healthy", Year := "FY2018", Advances := 165000,
     Deposits := 220000, Gross_NPA := 2.18, Net_NPA := 1.12, Borrowings := 9800,
     Total_Assets := 285000, Net_Profit := 4185, Interest_Income := 14800 },
   { Bank := "Kotak Bank", Category := "Healthy", Year := "FY2019", Advances := 198000,
     Deposits := 258000, Gross_NPA := 2.53, Net_NPA := 1.18, Borrowings := 11000,
     Total_Assets := 335000, Net_Profit := 4858, Interest_Income := 17200 },
   { Bank := "SBI", Category := "Healthy", Year := "FY2017", Advances := 1795000,
     Deposits := 2635000, Gross_NPA := 6.90, Net_NPA := 3.71, Borrowings := 185000,
     Total_Assets := 3200000, Net_Profit := 10485, Interest_Income := 185000 },
   { Bank := "SBI", Category := "Healthy", Year := "FY2018", Advances := 1940000,
     Deposits := 2890000, Gross_NPA := 10.91, Net_NPA := 5.73, Borrowings := 205000,
     Total_Assets := 3580000, Net_Profit := -6547, Interest_Income := 198000 },
   { Bank := "SBI", Category := "Healthy", Year := "FY2019", Advances := 2075000,
     Deposits := 3085000, Gross_NPA := 7.53, Net_NPA := 3.01, Borrowings := 195000,
     Total_Assets := 3820000, Net_Profit := 862, Interest_Income := 210000 },
   { Bank := "Axis Bank", Category := "Healthy", Year := "FY2017", Advances := 385000,
     Deposits := 480000, Gross_NPA := 4.86, Net_NPA := 2.61, Borrowings := 32000,
     Total_Assets := 650000, Net_Profit := 6068, Interest_Income := 36500 },
   { Bank := "Axis Bank", Category := "Healthy", Year := "FY2018", Advances := 445000,
     Deposits := 535000, Gross_NPA := 5.28, Net_NPA := 2.77, Borrowings := 38000,
     Total_Assets := 735000, Net_Profit := 3679, Interest_Income := 41200 },
   { Bank := "Axis Bank", Category := "Healthy", Year := "FY2019", Advances := 515000,
     Deposits := 605000, Gross_NPA := 5.26, Net_NPA := 2.13, Borrowings := 42000,
     Total_Assets := 825000, Net_Profit := 5251, Interest_Income := 46800 }]

/-- A dataframe row after the derived ratio columns (source lines 189-196) have
been added: the raw fields plus `LDR`, `AD_Gap_Pct`, `Borrowing_Ratio`
(named `Borrowing_Ratio_Pct` here), `Profit_Margin` and `Loan_Growth_Pct`. -/
structure Row where
  Bank : String
  Category : String
  Year : String
  Advances : ℚ
  Deposits : ℚ
  Gross_NPA : ℚ
  Net_NPA : ℚ
  Borrowings : ℚ
  Total_Assets : ℚ
  Net_Profit : ℚ
  Interest_Income : ℚ
  LDR : ℚ
  AD_Gap_Pct : ℚ
  Borrowing_Ratio_Pct : ℚ
  Profit_Margin : ℚ
  Loan_Growth_Pct : Option ℚ
deriving DecidableEq

/-- The four per-row ratio columns of source lines 189-192.
`Loan_Growth_Pct` is filled in afterwards (source line 196) by `addGrowth`. -/
def deriveRatios (r : RawRecord) : Row :=
  { Bank := r.Bank, Category := r.Category, Year := r.Year, Advances := r.Advances,
    Deposits := r.Deposits, Gross_NPA := r.Gross_NPA, Net_NPA := r.Net_NPA,
    Borrowings := r.Borrowings, Total_Assets := r.Total_Assets, Net_Profit := r.Net_Profit,
    Interest_Income := r.Interest_Income,
    LDR := r.Advances / r.Deposits * 100,
    AD_Gap_Pct := (r.Advances - r.Deposits) / r.Deposits * 100,
    Borrowing_Ratio_Pct := r.Borrowings / r.Total_Assets * 100,
    Profit_Margin := r.Net_Profit / r.Interest_Income * 100,
    Loan_Growth_Pct := none }

/-- Lexicographic string order on the underlying character list: this is
`String.lt`, spelled so that it evaluates by structural recursion. -/
def strBefore (a b : String) : Prop := a.data < b.data

instance (a b : String) : Decidable (strBefore a b) :=
  inferInstanceAs (Decidable (a.data < b.data))

/-- Row order used by `df.sort_values(['Bank', 'Year'])` (source line 195):
by bank name, then by fiscal-year label, both lexicographically. -/
def rowLE (a b : Row) : Prop :=
  strBefore a.Bank b.Bank ∨ (a.Bank = b.Bank ∧ (strBefore a.Year b.Year ∨ a.Year = b.Year))

instance : DecidableRel rowLE := fun a b => by
  unfold rowLE
  infer_instance

/-- Stable sort on the (bank, year) key, modelling
`df.sort_values(['Bank', 'Year'])` (source line 195). -/
def sortRows (rows : List Row) : List Row := List.insertionSort rowLE rows

/-- Bank-wise loan growth, modelling
`df.groupby('Bank')['Advances'].pct_change() * 100` (source line 196) on a
bank-sorted frame: within each (contiguous) bank group the first row gets no
growth value (pandas `NaN`, here `none`), every later row gets the percent
change of `Advances` against the immediately preceding row of the same bank. -/
def addGrowth : Option Row → List Row → List Row
  | _, [] => []
  | prev, r :: rest =>
    (match prev with
     | some p =>
       if p.Bank = r.Bank then
         { r with Loan_Growth_Pct := some ((r.Advances / p.Advances - 1) * 100) }
       else r
     | none => r) :: addGrowth (some r) rest

/-- The row-wise risk score (source lines 199-222), translated branch for
branch: an accumulator starting at 0, one strict if/elif chain per metric,
the loan-growth chain guarded by `pd.notna`, and a final `min(score, 100)`. -/
def calc_risk (row : Row) : ℕ :=
  let score : ℕ := 0
  let score :=
    if row.Gross_NPA > 10 then score + 30
    else if row.Gross_NPA > 5 then score + 20
    else if row.Gross_NPA > 2 then score + 10
    else score
  let score :=
    if row.LDR > 110 then score + 25
    else if row.LDR > 95 then score + 15
    else if row.LDR > 85 then score + 5
    else score
  let score :=
    if row.Borrowing_Ratio_Pct > 15 then score + 20
    else if row.Borrowing_Ratio_Pct > 10 then score + 12
    else if row.Borrowing_Ratio_Pct > 5 then score + 5
    else score
  let score :=
    if row.Net_Profit < 0 then score + 15
    else if row.Profit_Margin < 5 then score + 10
    else if row.Profit_Margin < 15 then score + 5
    else score
  let score :=
    match row.Loan_Growth_Pct with
    | some g =>
      if g > 35 then score + 10
      else if g > 25 then score + 6
      else if g > 15 then score + 3
      else score
    | none => score
  min score 100

/-- The classification lambda of source lines 225-227 (also re-spelled inline
at line 296 for the aggregate score): `HIGH RISK` at 70 and above,
`MEDIUM RISK` at 40 and above, else `LOW RISK`. -/
def risk_category_of (x : ℚ) : String :=
  if x ≥ 70 then "HIGH RISK" else if x ≥ 40 then "MEDIUM RISK" else "LOW RISK"

/-- A fully scored dataframe row: the derived row plus the `Risk_Score` and
`Risk_Category` columns (source lines 224-227). -/
structure ScoredRow extends Row where
  Risk_Score : ℕ
  Risk_Category : String
deriving DecidableEq

/-- Source lines 224-227: `Risk_Score = calc_risk(row)` and
`Risk_Category` from the threshold lambda applied to that score. -/
def scoreRow (r : Row) : ScoredRow :=
  { r with Risk_Score := calc_risk r,
           Risk_Category := risk_category_of (calc_risk r : ℚ) }

/-- The whole data-preparation pipeline of `load_data` (source lines 186-229)
applied to an arbitrary record list: derive the ratio columns, sort by
(bank, year), add bank-wise loan growth, then score and classify each row. -/
def prepare (records : List RawRecord) : List ScoredRow :=
  (addGrowth none (sortRows (records.map deriveRatios))).map scoreRow

/-- The prepared, scored dataset returned by `load_data()`
(source lines 146-229). -/
def load_data : List ScoredRow := prepare data

/-- Arithmetic mean of the stored per-record risk scores of a (filtered)
group, modelling `filtered_df['Risk_Score'].mean()` (source line 295). -/
def avg_risk (group : List ScoredRow) : ℚ :=
  (group.map (fun r => (r.Risk_Score : ℚ))).sum / group.length

/-- The inline aggregate classification of source line 296, applied to the
group's mean risk score. -/
def agg_risk_cat (group : List ScoredRow) : String :=
  if avg_risk group ≥ 70 then "HIGH RISK"
  else if avg_risk group ≥ 40 then "MEDIUM RISK"
  else "LOW RISK"

/-! ### The spec's point-band table (section 4.2), one function per metric

These are written from the spec's table, to be compared with the source
translation `calc_risk` above. -/

/-- Spec band: Gross NPA % — `>10 → 30`, `>5 → 20`, `>2 → 10`, else 0. -/
def npaPoints (g : ℚ) : ℕ :=
  if g > 10 then 30 else if g > 5 then 20 else if g > 2 then 10 else 0

/-- Spec band: LDR % — `>110 → 25`, `>95 → 15`, `>85 → 5`, else 0. -/
def ldrPoints (l : ℚ) : ℕ :=
  if l > 110 then 25 else if l > 95 then 15 else if l > 85 then 5 else 0

/-- Spec band: borrowing ratio % — `>15 → 20`, `>10 → 12`, `>5 → 5`, else 0. -/
def borrowPoints (b : ℚ) : ℕ :=
  if b > 15 then 20 else if b > 10 then 12 else if b > 5 then 5 else 0

/-- Spec band: net profit / profit margin — `net_profit < 0 → 15`, else
`margin < 5 → 10`, else `margin < 15 → 5`, else 0. -/
def profitPoints (np pm : ℚ) : ℕ :=
  if np < 0 then 15 else if pm < 5 then 10 else if pm < 15 then 5 else 0

/-- Spec band: loan growth % (only if defined) — `>35 → 10`, `>25 → 6`,
`>15 → 3`, else 0; an absent growth contributes 0. -/
def growthPoints : Option ℚ → ℕ
  | some g => if g > 35 then 10 else if g > 25 then 6 else if g > 15 then 3 else 0
  | none => 0

/-- The spec's raw (unclamped) total: the sum of the five band contributions. -/
def bandSum (row : Row) : ℕ :=
  npaPoints row.Gross_NPA + ldrPoints row.LDR + borrowPoints row.Borrowing_Ratio_Pct +
    profitPoints row.Net_Profit row.Profit_Margin + growthPoints row.Loan_Growth_Pct

/-! ### Helper lemmas -/

/-- The accumulator form of `calc_risk` is the clamped band sum. -/
theorem calc_risk_eq_min (row : Row) : calc_risk row = min (bandSum row) 100 := by
  have e1 : (if row.Gross_NPA > 10 then (0:ℕ) + 30
      else if row.Gross_NPA > 5 then (0:ℕ) + 20
      else if row.Gross_NPA > 2 then (0:ℕ) + 10 else (0:ℕ)) = npaPoints row.Gross_NPA := by
    unfold npaPoints; split_ifs <;> omega
  have e2 : ∀ s : ℕ, (if row.LDR > 110 then s + 25
      else if row.LDR > 95 then s + 15
      else if row.LDR > 85 then s + 5 else s) = s + ldrPoints row.LDR := by
    intro s; unfold ldrPoints; split_ifs <;> omega
  have e3 : ∀ s : ℕ, (if row.Borrowing_Ratio_Pct > 15 then s + 20
      else if row.Borrowing_Ratio_Pct > 10 then s + 12
      else if row.Borrowing_Ratio_Pct > 5 then s + 5 else s)
      = s + borrowPoints row.Borrowing_Ratio_Pct := by
    intro s; unfold borrowPoints; split_ifs <;> omega
  have e4 : ∀ s : ℕ, (if row.Net_Profit < 0 then s + 15
      else if row.Profit_Margin < 5 then s + 10
      else if row.Profit_Margin < 15 then s + 5 else s)
      = s + profitPoints row.Net_Profit row.Profit_Margin := by
    intro s; unfold profitPoints; split_ifs <;> omega
  show min _ 100 = _
  rw [e1, e2, e3, e4]
  rcases hg : row.Loan_Growth_Pct with _ | g
  · simp only [bandSum, hg, growthPoints]; omega
  · simp only [bandSum, hg, growthPoints]
    split_ifs <;> omega

theorem npaPoints_le (g : ℚ) : npaPoints g ≤ 30 := by
  unfold npaPoints; split_ifs <;> omega

theorem ldrPoints_le (l : ℚ) : ldrPoints l ≤ 25 := by
  unfold ldrPoints; split_ifs <;> omega

theorem borrowPoints_le (b : ℚ) : borrowPoints b ≤ 20 := by
  unfold borrowPoints; split_ifs <;> omega

theorem profitPoints_le (np pm : ℚ) : profitPoints np pm ≤ 15 := by
  unfold profitPoints; split_ifs <;> omega

theorem growthPoints_le (o : Option ℚ) : growthPoints o ≤ 10 := by
  rcases o with _ | g
  · simp [growthPoints]
  · simp only [growthPoints]; split_ifs <;> omega

/-- The five band maxima sum to exactly 100, so the raw total never exceeds 100. -/
theorem bandSum_le (row : Row) : bandSum row ≤ 100 := by
  have h1 := npaPoints_le row.Gross_NPA
  have h2 := ldrPoints_le row.LDR
  have h3 := borrowPoints_le row.Borrowing_Ratio_Pct
  have h4 := profitPoints_le row.Net_Profit row.Profit_Margin
  have h5 := growthPoints_le row.Loan_Growth_Pct
  unfold bandSum
  omega

/-- The clamp in `calc_risk` is never binding: the score is the raw band sum. -/
theorem calc_risk_eq_bandSum (row : Row) : calc_risk row = bandSum row := by
  rw [calc_risk_eq_min]
  have := bandSum_le row
  omega

theorem npaPoints_mono {g g' : ℚ} (h : g ≤ g') : npaPoints g ≤ npaPoints g' := by
  unfold npaPoints
  split_ifs <;> first | omega | (exfalso; push_neg at *; linarith)

theorem ldrPoints_mono {l l' : ℚ} (h : l ≤ l') : ldrPoints l ≤ ldrPoints l' := by
  unfold ldrPoints
  split_ifs <;> first | omega | (exfalso; push_neg at *; linarith)

theorem borrowPoints_mono {b b' : ℚ} (h : b ≤ b') : borrowPoints b ≤ borrowPoints b' := by
  unfold borrowPoints
  split_ifs <;> first | omega | (exfalso; push_neg at *; linarith)

theorem growthPoints_mono {g g' : ℚ} (h : g ≤ g') :
    growthPoints (some g) ≤ growthPoints (some g') := by
  simp only [growthPoints]
  split_ifs <;> first | omega | (exfalso; push_neg at *; linarith)

/-- Increasing the profit margin (with the sign of net profit fixed) never
raises the profit band: the margin bands reward higher margins. -/
theorem profitPoints_anti {np pm pm' : ℚ} (h : pm ≤ pm') :
    profitPoints np pm' ≤ profitPoints np pm := by
  unfold profitPoints
  split_ifs <;> first | omega | (exfalso; push_neg at *; linarith)

theorem calc_risk_mono_npa (row : Row) (g' : ℚ) (h : row.Gross_NPA ≤ g') :
    calc_risk row ≤ calc_risk { row with Gross_NPA := g' } := by
  rw [calc_risk_eq_bandSum, calc_risk_eq_bandSum]
  have h1 := npaPoints_mono h
  simp only [bandSum]
  omega

theorem calc_risk_mono_ldr (row : Row) (l' : ℚ) (h : row.LDR ≤ l') :
    calc_risk row ≤ calc_risk { row with LDR := l' } := by
  rw [calc_risk_eq_bandSum, calc_risk_eq_bandSum]
  have h1 := ldrPoints_mono h
  simp only [bandSum]
  omega

theorem calc_risk_mono_borrow (row : Row) (b' : ℚ) (h : row.Borrowing_Ratio_Pct ≤ b') :
    calc_risk row ≤ calc_risk { row with Borrowing_Ratio_Pct := b' } := by
  rw [calc_risk_eq_bandSum, calc_risk_eq_bandSum]
  have h1 := borrowPoints_mono h
  simp only [bandSum]
  omega

theorem calc_risk_mono_growth (row : Row) (g g' : ℚ) (hg : row.Loan_Growth_Pct = some g)
    (h : g ≤ g') : calc_risk row ≤ calc_risk { row with Loan_Growth_Pct := some g' } := by
  rw [calc_risk_eq_bandSum, calc_risk_eq_bandSum]
  have h1 := @growthPoints_mono g g' h
  simp only [bandSum, hg]
  omega

theorem calc_risk_anti_margin (row : Row) (m' : ℚ) (h : row.Profit_Margin ≤ m') :
    calc_risk { row with Profit_Margin := m' } ≤ calc_risk row := by
  rw [calc_risk_eq_bandSum, calc_risk_eq_bandSum]
  have h1 := @profitPoints_anti row.Net_Profit row.Profit_Margin m' h
  simp only [bandSum]
  omega

theorem risk_category_of_high {s : ℚ} : risk_category_of s = "HIGH RISK" ↔ 70 ≤ s := by
  unfold risk_category_of
  split_ifs with h1 h2 <;> simp [h1]

theorem risk_category_of_medium {s : ℚ} :
    risk_category_of s = "MEDIUM RISK" ↔ 40 ≤ s ∧ s < 70 := by
  unfold risk_category_of
  split_ifs with h1 h2
  · exact iff_of_false (by decide) (fun hc => absurd h1 (not_le.mpr hc.2))
  · exact iff_of_true rfl ⟨h2, not_le.mp h1⟩
  · exact iff_of_false (by decide) (fun hc => h2 hc.1)

theorem risk_category_of_low {s : ℚ} : risk_category_of s = "LOW RISK" ↔ s < 40 := by
  unfold risk_category_of
  split_ifs with h1 h2
  · exact iff_of_false (by decide) (by intro hc; linarith)
  · exact iff_of_false (by decide) (not_lt.mpr h2)
  · exact iff_of_true rfl (not_le.mp h2)

/-- A concrete row used to instantiate the universally quantified claim
theorems: Gross NPA 11 (first NPA band), everything else in the zero band,
no loan growth.  Its score is 30. -/
def wRow : Row :=
  { Bank := "W Bank", Category := "Stressed", Year := "FY2020", Advances := 100,
    Deposits := 200, Gross_NPA := 11, Net_NPA := 1, Borrowings := 1, Total_Assets := 100,
    Net_Profit := 1, Interest_Income := 5, LDR := 50, AD_Gap_Pct := -50,
    Borrowing_Ratio_Pct := 1, Profit_Margin := 20, Loan_Growth_Pct := none }

/-! ### Claim theorems -/

/-- Claim C1: for every record, the risk score computed by `calc_risk` equals
the sum of exactly five band contributions, one per metric, each being the
points of the first matching band of the spec's table; in particular a record
with Gross NPA > 10 receives 30 from that metric, not 30+20+10. -/
theorem C1_risk_score_is_sum_of_first_matching_bands (row : Row) :
    calc_risk row =
      npaPoints row.Gross_NPA + ldrPoints row.LDR + borrowPoints row.Borrowing_Ratio_Pct +
        profitPoints row.Net_Profit row.Profit_Margin + growthPoints row.Loan_Growth_Pct ∧
    (row.Gross_NPA > 10 → npaPoints row.Gross_NPA = 30) :=
  ⟨calc_risk_eq_bandSum row, fun h => by unfold npaPoints; rw [if_pos h]⟩

/-- Witness for C1 at a concrete row with Gross NPA 11 > 10. -/
theorem C1_witness :
    wRow.Gross_NPA > 10 ∧
    calc_risk wRow =
      npaPoints wRow.Gross_NPA + ldrPoints wRow.LDR + borrowPoints wRow.Borrowing_Ratio_Pct +
        profitPoints wRow.Net_Profit wRow.Profit_Margin + growthPoints wRow.Loan_Growth_Pct ∧
    npaPoints wRow.Gross_NPA = 30 :=
  ⟨by decide, (C1_risk_score_is_sum_of_first_matching_bands wRow).1,
    (C1_risk_score_is_sum_of_first_matching_bands wRow).2 (by decide)⟩

/-- Claim C2: the classification returns HIGH RISK iff the score is at least
70, MEDIUM RISK iff it is in [40, 70), LOW RISK iff below 40; and the
boundary scores 70, 69, 40, 39 classify as HIGH, MEDIUM, MEDIUM, LOW. -/
theorem C2_classification_thresholds (s : ℚ) :
    (risk_category_of s = "HIGH RISK" ↔ 70 ≤ s) ∧
    (risk_category_of s = "MEDIUM RISK" ↔ 40 ≤ s ∧ s < 70) ∧
    (risk_category_of s = "LOW RISK" ↔ s < 40) ∧
    risk_category_of 70 = "HIGH RISK" ∧ risk_category_of 69 = "MEDIUM RISK" ∧
    risk_category_of 40 = "MEDIUM RISK" ∧ risk_category_of 39 = "LOW RISK" :=
  ⟨risk_category_of_high, risk_category_of_medium, risk_category_of_low,
    by decide, by decide, by decide, by decide⟩

/-- Witness for C2 at the boundary score 70. -/
theorem C2_witness : risk_category_of 70 = "HIGH RISK" ∧ (70 : ℚ) ≤ 70 :=
  ⟨(C2_classification_thresholds 70).2.2.2.1, by norm_num⟩

/-- Claim C4: for every record, whatever its raw field values, the risk score
lies between 0 and 100. -/
theorem C4_risk_score_bounded (row : Row) : 0 ≤ calc_risk row ∧ calc_risk row ≤ 100 :=
  ⟨Nat.zero_le _, by rw [calc_risk_eq_min]; exact Nat.min_le_right _ _⟩

/-- Claim C8: the raw sum of the five band contributions is at most 100
(the per-metric maxima 30+25+20+15+10 sum to exactly 100), so the clamp
`min(score, 100)` never changes the result. -/
theorem C8_clamp_never_binds (row : Row) :
    bandSum row ≤ 100 ∧ calc_risk row = bandSum row :=
  ⟨bandSum_le row, calc_risk_eq_bandSum row⟩

/-- Claim C9: the risk score and category do not depend on `Net_NPA` or on
the derived `AD_Gap_Pct`: changing either (at the scored-row level, or
changing `Net_NPA` at the raw-record level through the whole derivation)
leaves `Risk_Score` and `Risk_Category` unchanged. -/
theorem C9_score_ignores_net_npa_and_ad_gap (row : Row) (x y : ℚ) (r : RawRecord) :
    calc_risk { row with Net_NPA := x, AD_Gap_Pct := y } = calc_risk row ∧
    risk_category_of (calc_risk { row with Net_NPA := x, AD_Gap_Pct := y } : ℚ) =
      risk_category_of (calc_risk row : ℚ) ∧
    (scoreRow (deriveRatios { r with Net_NPA := x })).Risk_Score =
      (scoreRow (deriveRatios r)).Risk_Score ∧
    (scoreRow (deriveRatios { r with Net_NPA := x })).Risk_Category =
      (scoreRow (deriveRatios r)).Risk_Category :=
  ⟨rfl, rfl, rfl, rfl⟩

/-- Claim C10: the classification is total over all rational scores: every
score is mapped to one of the three labels, any score below 40 (negative
included) yields LOW RISK, and any score at or above 70 (above 100 included)
yields HIGH RISK. -/
theorem C10_classification_total (s : ℚ) :
    (risk_category_of s = "HIGH RISK" ∨ risk_category_of s = "MEDIUM RISK" ∨
      risk_category_of s = "LOW RISK") ∧
    (s < 40 → risk_category_of s = "LOW RISK") ∧
    (70 ≤ s → risk_category_of s = "HIGH RISK") := by
  refine ⟨?_, fun h => risk_category_of_low.mpr h, fun h => risk_category_of_high.mpr h⟩
  unfold risk_category_of
  split_ifs <;> simp

/-- Witness for C10 at a negative score and at a score above 100. -/
theorem C10_witness :
    ((-5 : ℚ) < 40 ∧ risk_category_of (-5) = "LOW RISK") ∧
    ((70 : ℚ) ≤ 105 ∧ risk_category_of 105 = "HIGH RISK") :=
  ⟨⟨by norm_num, (C10_classification_total (-5)).2.1 (by norm_num)⟩,
    ⟨by norm_num, (C10_classification_total 105).2.2 (by norm_num)⟩⟩

/-- Claim C3: for every (non-empty) group of rows, the aggregate risk score is
the arithmetic mean of the group's individual `calc_risk` scores, and the
aggregate category applies the same thresholds to that mean (the band logic
is not re-run on averaged ratios). -/
theorem C3_aggregate_is_mean_of_scores (rows : List Row) (h : rows ≠ []) :
    avg_risk (rows.map scoreRow) = (rows.map (fun r => (calc_risk r : ℚ))).sum / rows.length ∧
    agg_risk_cat (rows.map scoreRow) = risk_category_of (avg_risk (rows.map scoreRow)) := by
  constructor
  · unfold avg_risk
    rw [List.map_map, List.length_map]
    rfl
  · rfl

/-- Witness for C3 on a concrete singleton group. -/
theorem C3_witness :
    [wRow] ≠ [] ∧
    avg_risk ([wRow].map scoreRow) = ([wRow].map (fun r => (calc_risk r : ℚ))).sum / [wRow].length ∧
    agg_risk_cat ([wRow].map scoreRow) = risk_category_of (avg_risk ([wRow].map scoreRow)) :=
  ⟨List.cons_ne_nil _ _,
    (C3_aggregate_is_mean_of_scores [wRow] (List.cons_ne_nil _ _)).1,
    (C3_aggregate_is_mean_of_scores [wRow] (List.cons_ne_nil _ _)).2⟩

/-- A concrete row with positive net profit and profit margin 4: it sits in
the 10-point margin band, everything else in the zero band. -/
def marginRow : Row :=
  { Bank := "M Bank", Category := "Healthy", Year := "FY2020", Advances := 100,
    Deposits := 200, Gross_NPA := 1, Net_NPA := 1, Borrowings := 1, Total_Assets := 100,
    Net_Profit := 1, Interest_Income := 25, LDR := 50, AD_Gap_Pct := -50,
    Borrowing_Ratio_Pct := 1, Profit_Margin := 4, Loan_Growth_Pct := none }

/-- Counterexample to claim C5 as stated: raising the profit margin from 4 to
20 (all other inputs fixed, net profit positive) drops the risk score from 10
to 0, so increasing this ratio does decrease the score. -/
theorem C5_counterexample :
    ¬ calc_risk marginRow ≤ calc_risk { marginRow with Profit_Margin := 20 } := by
  decide

/-- Claim C5 (amended): increasing gross NPA, LDR, borrowing ratio, or a
defined loan growth while holding every other input fixed never decreases the
risk score; increasing the profit margin (net profit and the rest fixed)
never increases it, because the margin bands reward higher margins. -/
theorem C5_band_monotonicity_amended :
    (∀ (row : Row) (g' : ℚ), row.Gross_NPA ≤ g' →
      calc_risk row ≤ calc_risk { row with Gross_NPA := g' }) ∧
    (∀ (row : Row) (l' : ℚ), row.LDR ≤ l' →
      calc_risk row ≤ calc_risk { row with LDR := l' }) ∧
    (∀ (row : Row) (b' : ℚ), row.Borrowing_Ratio_Pct ≤ b' →
      calc_risk row ≤ calc_risk { row with Borrowing_Ratio_Pct := b' }) ∧
    (∀ (row : Row) (g g' : ℚ), row.Loan_Growth_Pct = some g → g ≤ g' →
      calc_risk row ≤ calc_risk { row with Loan_Growth_Pct := some g' }) ∧
    (∀ (row : Row) (m' : ℚ), row.Profit_Margin ≤ m' →
      calc_risk { row with Profit_Margin := m' } ≤ calc_risk row) :=
  ⟨calc_risk_mono_npa, calc_risk_mono_ldr, calc_risk_mono_borrow,
    calc_risk_mono_growth, calc_risk_anti_margin⟩

/-- Witness for the amended C5: one concrete application per conjunct. -/
theorem C5_witness :
    (wRow.Gross_NPA ≤ 12 ∧ calc_risk wRow ≤ calc_risk { wRow with Gross_NPA := 12 }) ∧
    (wRow.LDR ≤ 120 ∧ calc_risk wRow ≤ calc_risk { wRow with LDR := 120 }) ∧
    (wRow.Borrowing_Ratio_Pct ≤ 16 ∧
      calc_risk wRow ≤ calc_risk { wRow with Borrowing_Ratio_Pct := 16 }) ∧
    (({ wRow with Loan_Growth_Pct := some 20 } : Row).Loan_Growth_Pct = some 20 ∧
      (20 : ℚ) ≤ 40 ∧
      calc_risk { wRow with Loan_Growth_Pct := some 20 } ≤
        calc_risk { { wRow with Loan_Growth_Pct := some 20 } with Loan_Growth_Pct := some 40 }) ∧
    (marginRow.Profit_Margin ≤ 20 ∧
      calc_risk { marginRow with Profit_Margin := 20 } ≤ calc_risk marginRow) :=
  ⟨⟨by decide, C5_band_monotonicity_amended.1 wRow 12 (by decide)⟩,
    ⟨by decide, C5_band_monotonicity_amended.2.1 wRow 120 (by decide)⟩,
    ⟨by decide, C5_band_monotonicity_amended.2.2.1 wRow 16 (by decide)⟩,
    ⟨rfl, by decide,
      C5_band_monotonicity_amended.2.2.2.1 { wRow with Loan_Growth_Pct := some 20 } 20 40
        rfl (by decide)⟩,
    ⟨by decide, C5_band_monotonicity_amended.2.2.2.2 marginRow 20 (by decide)⟩⟩

theorem addGrowth_length (p : Option Row) (l : List Row) :
    (addGrowth p l).length = l.length := by
  induction l generalizing p with
  | nil => rfl
  | cons r rest ih => simp [addGrowth, ih]

/-- The pipeline keeps every input record: no record is ever rejected. -/
theorem prepare_length (records : List RawRecord) :
    (prepare records).length = records.length := by
  unfold prepare sortRows
  rw [List.length_map, addGrowth_length, List.length_insertionSort, List.length_map]

/-- A record whose deposits, total assets and interest income are all zero. -/
def zeroDenomRecord : RawRecord :=
  { Bank := "Zero Bank", Category := "Stressed", Year := "FY2020", Advances := 100,
    Deposits := 0, Gross_NPA := 1, Net_NPA := 1, Borrowings := 10, Total_Assets := 0,
    Net_Profit := 5, Interest_Income := 0 }

/-- Counterexample to claim C6 as stated: a record with zero deposits, zero
total assets and zero interest income is not rejected at load time — the
pipeline retains and scores it. -/
theorem C6_counterexample :
    zeroDenomRecord.Deposits = 0 ∧ zeroDenomRecord.Total_Assets = 0 ∧
    zeroDenomRecord.Interest_Income = 0 ∧
    (prepare [zeroDenomRecord]).length = 1 ∧
    (prepare [zeroDenomRecord]).map (fun r => r.Bank) = ["Zero Bank"] := by
  refine ⟨rfl, rfl, rfl, ?_, ?_⟩ <;> rfl

/-- Claim C6 (amended): the loader performs no input validation — every
record, zero denominators included, is retained and scored; the embedded
dataset happens to have strictly positive deposits and total assets and
nonzero interest income in every record, so no division by zero ever occurs
on the actual data. -/
theorem C6_no_validation_but_dataset_safe :
    (∀ records : List RawRecord, (prepare records).length = records.length) ∧
    (∀ r ∈ data, 0 < r.Deposits ∧ 0 < r.Total_Assets ∧ r.Interest_Income ≠ 0) :=
  ⟨prepare_length, by decide⟩

/-- Witness for the amended C6: the zero-denominator record is retained, and
the first dataset record has safe denominators. -/
theorem C6_witness :
    (prepare [zeroDenomRecord]).length = [zeroDenomRecord].length ∧
    yesBankFY2017 ∈ data ∧
    (0 < yesBankFY2017.Deposits ∧ 0 < yesBankFY2017.Total_Assets ∧
      yesBankFY2017.Interest_Income ≠ 0) :=
  ⟨C6_no_validation_but_dataset_safe.1 [zeroDenomRecord],
    List.mem_cons_self _ _,
    C6_no_validation_but_dataset_safe.2 yesBankFY2017 (List.mem_cons_self _ _)⟩

/-- Claim C7: in the scored dataset, a record's loan growth is absent exactly
when no record of the same bank has an earlier fiscal year (the bank's
earliest year), hence present for every later year; and whenever loan growth
is absent, the loan-growth metric contributes exactly 0 points while the
other four bands are still computed and clamped as usual. -/
theorem C7_growth_absent_iff_earliest_year :
    (∀ r ∈ load_data, (r.Loan_Growth_Pct = none ↔
      ∀ r' ∈ load_data, r'.Bank = r.Bank → ¬ strBefore r'.Year r.Year)) ∧
    (∀ row : Row, row.Loan_Growth_Pct = none →
      calc_risk row = min (npaPoints row.Gross_NPA + ldrPoints row.LDR +
        borrowPoints row.Borrowing_Ratio_Pct +
        profitPoints row.Net_Profit row.Profit_Margin) 100) := by
  constructor
  · decide
  · intro row h
    rw [calc_risk_eq_min]
    simp [bandSum, h, growthPoints]

/-- Witness for C7 at a concrete growth-less row. -/
theorem C7_witness :
    wRow.Loan_Growth_Pct = none ∧
    calc_risk wRow = min (npaPoints wRow.Gross_NPA + ldrPoints wRow.LDR +
      borrowPoints wRow.Borrowing_Ratio_Pct +
      profitPoints wRow.Net_Profit wRow.Profit_Margin) 100 :=
  ⟨rfl, C7_growth_absent_iff_earliest_year.2 wRow rfl⟩

end LoanStressMonitor
